import Mathlib

/-!
Verification of the aggregate-maintenance logic of the BE-training-portal
backend: assignment submission/deletion average-score maintenance, attendance
counters and attendance-rate maintenance, batch-identifier resolution, payment
verification and enrollment propagation.  The definitions below are shallow
embeddings of the JavaScript request handlers; the theorems settle the frozen
specification claims against them.
-/

namespace TrainingPortal

/-- JavaScript `Math.round` on a rational: round half toward positive
infinity, i.e. `⌊q + 1/2⌋`. -/
def jsRound (q : ℚ) : ℤ := ⌊q + 1 / 2⌋

/-! ## Assignment records and average score

From `assignment.routes` (src/unnamed/part_001): submission handler
(`router.post /:documentId/:assignmentName/submit`) and deletion handler
(`router.delete /:documentId/:assignmentName`). -/

/-- One entry of a user's `courses.{courseId}.assignmentHistory`
(built at part_001 lines 845-854; submissions store `assignmentId :=
documentId`, without the assignment name). -/
structure HistEntry where
  assignmentId : String
  assignmentName : String
  totalMarks : Nat
  score : Nat
  deriving Repr, DecidableEq

/-- The `reduce` computing `totalScore` (part_001 lines 870-882 and 502-511):
entries whose `totalMarks` is `0` leave the accumulator unchanged, every other
entry adds `score / totalMarks * 100`. -/
def totalScorePct (h : List HistEntry) : ℚ :=
  h.foldl
    (fun sum e =>
      if e.totalMarks = 0 then sum else sum + (e.score : ℚ) / (e.totalMarks : ℚ) * 100)
    0

/-- The average-score computation shared by the submit handler (part_001 lines
884-888) and the delete handler (lines 499-515): `Math.round(totalScore /
history.length)` when the history is non-empty, else `0`.  Note the
denominator is the length of the whole history. -/
def computeAverageScore (h : List HistEntry) : ℤ :=
  if h.length = 0 then 0 else jsRound (totalScorePct h / (h.length : ℚ))

/-- One submission inside an assignment field (part_001 lines 765-775). -/
structure Submission where
  traineeId : String
  email : String
  name : String
  score : Nat
  deriving Repr, DecidableEq

/-- An assignment field of an `assignments` document. -/
structure Assignment where
  courseId : String
  courseName : String
  batchId : String
  totalMarks : Nat
  submissions : List Submission
  deriving Repr, DecidableEq

/-- One entry of a user's `courses.{courseId}.attendanceHistory`
(attendance.routes.js lines 434-438).  The `date` is the `DD-MM-YY` key the
handlers derive from the attendance document id; the stored status is the
normalized `"Present"`/`"Absent"` value. -/
structure AttEntry where
  date : String
  status : String
  batchId : String
  deriving Repr, DecidableEq

/-- The per-user course progress record `courses.{courseId}` inside a
`user_manage` document. -/
structure CourseData where
  totalPresent : Nat
  totalAbsent : Nat
  attendanceRate : ℤ
  attendanceHistory : List AttEntry
  averageScore : ℤ
  assignmentHistory : List HistEntry
  deriving Repr, DecidableEq

/-- Upsert of an entry into `assignmentHistory` keyed by `assignmentId`
(part_001 lines 856-867): replace the first entry with the same
`assignmentId` if present, else push at the end. -/
def upsertHistory (h : List HistEntry) (e : HistEntry) : List HistEntry :=
  match h.findIdx? (fun x => x.assignmentId = e.assignmentId) with
  | some i => h.set i e
  | none => h ++ [e]

/-- The `user_manage` propagation of a successful submission (part_001 lines
817-897): build the history entry (with `assignmentId := documentId`), upsert
it, recompute the average score over the whole updated history. -/
def applyAssignmentScore (cd : CourseData) (documentId assignmentName : String)
    (totalMarks score : Nat) : CourseData :=
  let entry : HistEntry :=
    { assignmentId := documentId, assignmentName := assignmentName
      totalMarks := totalMarks, score := score }
  let h := upsertHistory cd.assignmentHistory entry
  { cd with assignmentHistory := h, averageScore := computeAverageScore h }

/-- The `user_manage` reversal performed by assignment deletion (part_001
lines 493-523): drop every history entry whose `assignmentId` equals the
deleted document's id, recompute the average score the same way. -/
def reverseAssignmentScore (cd : CourseData) (documentId : String) : CourseData :=
  let h := cd.assignmentHistory.filter (fun e => e.assignmentId ≠ documentId)
  { cd with assignmentHistory := h, averageScore := computeAverageScore h }

/-- Outcome of the submission handler restricted to the assignment field and
the submitting user's course record. -/
structure SubmitResult where
  status : Nat
  assignment : Assignment
  courseData : CourseData
  deriving Repr, DecidableEq

/-- The submission pipeline (part_001 lines 700-925) restricted to the two
records the claims mention: reject with HTTP 400 if the trainee already
appears in `submissions` (lines 751-762), otherwise append the submission and
propagate the score into the course record. -/
def submitAssignment (a : Assignment) (cd : CourseData)
    (documentId assignmentName traineeId email name : String) (score : Nat) :
    SubmitResult :=
  match a.submissions.find? (fun sub => sub.traineeId = traineeId) with
  | some _ => { status := 400, assignment := a, courseData := cd }
  | none =>
      let a' := { a with
        submissions := a.submissions ++
          [{ traineeId := traineeId, email := email, name := name, score := score }] }
      let cd' := applyAssignmentScore cd documentId assignmentName a.totalMarks score
      { status := 200, assignment := a', courseData := cd' }

/-- Average score following the specification's words: entries with
`totalMarks == 0` contribute nothing and the denominator is the count of
history entries with `totalMarks > 0`. -/
def specAverageScore (h : List HistEntry) : ℤ :=
  let pos := h.filter (fun e => 0 < e.totalMarks)
  if pos.length = 0 then 0 else jsRound (totalScorePct h / (pos.length : ℚ))

/-! ## JavaScript string primitives

The handlers manipulate identifiers with `split("-")`, `join("-")` and
`includes("-")`.  These embed the semantics of those primitives structurally
over the character list of a string. -/

/-- `split` on a single character, over the character list: JavaScript
`s.split(c)` semantics (never returns an empty list; the empty string splits
to `[""]`). -/
def splitCharList (c : Char) : List Char → List (List Char)
  | [] => [[]]
  | x :: xs =>
      let r := splitCharList c xs
      if x = c then [] :: r
      else
        match r with
        | [] => [[x]]
        | y :: ys => (x :: y) :: ys

/-- JavaScript `s.split(c)` for a one-character separator. -/
def jsSplit (s : String) (c : Char) : List String :=
  (splitCharList c s.data).map String.mk

/-- JavaScript `array.join("-")`. -/
def joinDash : List String → String
  | [] => ""
  | [x] => x
  | x :: xs => x ++ "-" ++ joinDash xs

/-- JavaScript `s.includes("-")`. -/
def includesDash (s : String) : Bool := s.data.contains '-'

/-! ## Derived-record locator: batch identifier resolution

From attendance.routes.js lines 142-197 (`router.post /`). -/

/-- A field of a `batches` base document: either a metadata field
(`createdAt`, plain strings, ...) or a nested batch object carrying a
`suffix` attribute. -/
inductive BatchFieldVal where
  | meta
  | details (suffix : String)
  deriving Repr, DecidableEq

/-- Lines 144-151: split the incoming batch id on `"-"`, take the first two
segments and the literal year `"25"` as the base document id
(`` `${coursePrefix}-${courseCode}-25` ``), and the last segment as the
suffix.  A missing segment interpolates as JavaScript `undefined`. -/
def resolveBatchBase (batchId : String) : String × String :=
  let parts := jsSplit batchId '-'
  let coursePrefix := parts.getD 0 "undefined"
  let courseCode := parts.getD 1 "undefined"
  (coursePrefix ++ "-" ++ courseCode ++ "-25", parts.getLastD "undefined")

/-- JavaScript object property lookup `batchData[key]` on an insertion-ordered
field list (object keys are unique, so the first match is the binding). -/
def lookupField {α : Type} (fields : List (String × α)) (k : String) : Option α :=
  (fields.find? (fun kv => kv.1 = k)).map Prod.snd

/-- Lines 179-189: scan `Object.entries(batchData)` for fields whose key
contains `"-"` and whose value is an object with `suffix` equal to the
requested suffix; each match overwrites the previous one, so the last match
wins. -/
def scanBySuffix (fields : List (String × BatchFieldVal)) (sfx : String) :
    Option String :=
  fields.foldl
    (fun acc kv =>
      match kv.2 with
      | .details s => if includesDash kv.1 ∧ s = sfx then some kv.1 else acc
      | .meta => acc)
    none

/-- Lines 170-197: first try the direct property lookup under the full batch
id (every stored field value is a truthy object/timestamp), otherwise scan by
suffix; `none` means the 404 "Batch details not found" response. -/
def resolveBatchField (fields : List (String × BatchFieldVal))
    (batchId sfx : String) : Option String :=
  match lookupField fields batchId with
  | some _ => some batchId
  | none => scanBySuffix fields sfx

/-- The full resolution: base document id, suffix, and resolved field key. -/
def resolveBatch (batchId : String) (fields : List (String × BatchFieldVal)) :
    String × String × Option String :=
  let (base, sfx) := resolveBatchBase batchId
  (base, sfx, resolveBatchField fields batchId sfx)

/-! ## Attendance mutators

From attendance.routes.js: create/update handler (`router.post /`, lines
77-562) and delete handler (`router.delete /:recordId`, lines 565-746). -/

/-- One element of a request's `studentDetails` (and of the stored record's
`studentDetails`, where a falsy status has been normalized to `"Absent"`). -/
structure StudentDetail where
  studentId : String
  name : String
  status : String
  deriving Repr, DecidableEq

/-- `student.status || "Absent"` (line 217): the only falsy string is `""`. -/
def normStatus (s : String) : String := if s = "" then "Absent" else s

/-- Projection stored in the attendance document (lines 214-218). -/
def normDetail (s : StudentDetail) : StudentDetail :=
  { s with status := normStatus s.status }

/-- A roster entry in the per-batch `trainees` document, restricted to the
attendance counters (missing counters read as `0`, lines 348-349). -/
structure Trainee where
  userId : String
  totalPresent : Nat
  totalAbsent : Nat
  deriving Repr, DecidableEq

/-- The `statusMap` built by `forEach` assignment (lines 335-338): the last
entry for a student id wins; lookup of an absent id is `none`
(`hasOwnProperty` false). -/
def statusMapLookup (details : List StudentDetail) (id : String) :
    Option String :=
  details.foldl (fun acc s => if s.studentId = id then some s.status else acc)
    none

/-- Lines 341-389: the per-trainee roster counter update of the
create/update handler.  `existingDetails` is the stored record's
`studentDetails` when the document already existed (`existingData`), `none`
on the create path.  `Math.max(0, n - 1)` is truncated subtraction. -/
def rosterApplyTrainee (isNewDateRecord : Bool)
    (existingDetails : Option (List StudentDetail))
    (details : List StudentDetail) (t : Trainee) : Trainee :=
  match statusMapLookup details t.userId with
  | none => t
  | some newStatus =>
      if isNewDateRecord then
        if newStatus = "Present" then
          { t with totalPresent := t.totalPresent + 1 }
        else
          { t with totalAbsent := t.totalAbsent + 1 }
      else
        match existingDetails with
        | none => t
        | some ex =>
            match ex.find? (fun s => s.studentId = t.userId) with
            | none => t
            | some es =>
                if es.status = "Present" ∧ newStatus = "Absent" then
                  { t with totalPresent := t.totalPresent - 1,
                           totalAbsent := t.totalAbsent + 1 }
                else if es.status = "Absent" ∧ newStatus = "Present" then
                  { t with totalPresent := t.totalPresent + 1,
                           totalAbsent := t.totalAbsent - 1 }
                else t

/-- Lines 508-514 and 701-707: `totalAttendance > 0 ?
Math.round((totalPresent / totalAttendance) * 100) : 0`. -/
def computeRate (p a : Nat) : ℤ :=
  if 0 < p + a then jsRound ((p : ℚ) / ((p : ℚ) + (a : ℚ)) * 100) else 0

/-- Lines 400-531: the per-student `user_manage` course update of the
create/update handler.  `studentStatus` is the raw status in the request,
`currentDate` the `DD-MM-YY` date key derived from the document id, and
`existingDetails` the previously stored `studentDetails` (if any).  The
attendance rate is recomputed and written in every case. -/
def userApplyAttendance (cd : CourseData) (studentStatus : String)
    (existingDetails : Option (List StudentDetail)) (isNewDateRecord : Bool)
    (currentDate batchId studentId : String) : CourseData :=
  let isPresent := studentStatus = "Present"
  let entry : AttEntry :=
    { date := currentDate
      status := if isPresent then "Present" else "Absent"
      batchId := batchId }
  let idx? := cd.attendanceHistory.findIdx? (fun e => e.date = currentDate)
  let cd' :=
    if isNewDateRecord ∨ idx? = none then
      let history :=
        match idx? with
        | none => cd.attendanceHistory ++ [entry]
        | some i => cd.attendanceHistory.set i entry
      if isPresent then
        { cd with attendanceHistory := history,
                  totalPresent := cd.totalPresent + 1 }
      else
        { cd with attendanceHistory := history,
                  totalAbsent := cd.totalAbsent + 1 }
    else
      match existingDetails with
      | none => cd
      | some ex =>
          match ex.find? (fun s => s.studentId = studentId) with
          | none => cd
          | some es =>
              if es.status ≠ studentStatus then
                let history :=
                  match idx? with
                  | some i => cd.attendanceHistory.set i entry
                  | none => cd.attendanceHistory
                if es.status = "Present" ∧ ¬isPresent then
                  { cd with attendanceHistory := history,
                            totalPresent := cd.totalPresent - 1,
                            totalAbsent := cd.totalAbsent + 1 }
                else if es.status = "Absent" ∧ isPresent then
                  { cd with attendanceHistory := history,
                            totalPresent := cd.totalPresent + 1,
                            totalAbsent := cd.totalAbsent - 1 }
                else
                  { cd with attendanceHistory := history }
              else cd
  { cd' with attendanceRate := computeRate cd'.totalPresent cd'.totalAbsent }

/-- Lines 613-630: the per-trainee roster counter reversal of the delete
handler, driven by the deleted record's `studentDetails`. -/
def rosterReverseTrainee (recordDetails : List StudentDetail) (t : Trainee) :
    Trainee :=
  match statusMapLookup recordDetails t.userId with
  | none => t
  | some st =>
      if st = "Present" then { t with totalPresent := t.totalPresent - 1 }
      else { t with totalAbsent := t.totalAbsent - 1 }

/-- Lines 643-724: the per-student `user_manage` reversal of the delete
handler: decrement the counter matching the record's stored status, remove
every history entry whose date matches the record's date (when the id parses
to a date), recompute the rate. -/
def userReverseAttendance (cd : CourseData) (studentStatus : String)
    (recordDate : Option String) : CourseData :=
  let isPresent := studentStatus = "Present"
  let cd1 :=
    if isPresent then { cd with totalPresent := cd.totalPresent - 1 }
    else { cd with totalAbsent := cd.totalAbsent - 1 }
  let cd2 :=
    match recordDate with
    | some d =>
        { cd1 with
          attendanceHistory := cd1.attendanceHistory.filter (fun e => e.date ≠ d) }
    | none => cd1
  { cd2 with attendanceRate := computeRate cd2.totalPresent cd2.totalAbsent }

/-- `documentId.split("-").slice(0, 3).join("-")` (lines 237 and 266): the
`DD-MM-YY` date part of an attendance document id. -/
def extractDatePart (id : String) : String :=
  joinDash ((jsSplit id '-').take 3)

/-- Lines 588-596: the delete handler's parse of the record date from the
record id; `none` (fewer than three segments) leaves `recordDate` null. -/
def recordDateOf (id : String) : Option String :=
  let parts := (jsSplit id '-').take 3
  if parts.length = 3 then some (joinDash parts) else none

/-! ## Assignment deletion at the document level

From part_001 lines 385-439 (`router.delete /:documentId/:assignmentName`).
`fields` is the insertion-ordered list of the document's assignment fields
(its keys other than `createdAt`, `updatedAt`, `batchId`, which lines 423-425
filter away). -/

/-- Outcome of the document-level part of assignment deletion. -/
inductive DeleteOutcome (α : Type) where
  | notFound
  | docDeleted
  | fieldDeleted (remaining : List (String × α))
  deriving Repr, DecidableEq

/-- Lines 413-439: 404 when the named field is absent; delete the whole
document when the named field is the only assignment field
(`assignmentFields.length === 1 && assignmentFields[0] === assignmentName`);
otherwise remove just that field (`FieldValue.delete()` on its key). -/
def deleteAssignmentField {α : Type} (fields : List (String × α))
    (name : String) : DeleteOutcome α :=
  match lookupField fields name with
  | none => .notFound
  | some _ =>
      if fields.length = 1 ∧ (fields.map Prod.fst).headD "" = name then
        .docDeleted
      else
        .fieldDeleted (fields.filter (fun kv => kv.1 ≠ name))

/-! ## Payment verification

From src/controllers/payment.controller.js `verifyPayment` (lines 113-309),
the version wired to `POST /verify-payment` in payment.routes.js. -/

/-- A trainee entry written into the per-batch roster document by payment
completion (payment.controller.js lines 200-223). `enrolledAt` is the
`new Date()` wall-clock value at the time of the call. -/
structure TraineeEntry where
  userId : String
  name : String
  email : String
  enrolledAt : Nat
  courseId : String
  batchId : String
  deriving Repr, DecidableEq

/-- Firestore `FieldValue.arrayUnion` with one element: the element is
appended unless an element equal to it in every field (including
`enrolledAt`) is already present. -/
def arrayUnion (l : List TraineeEntry) (e : TraineeEntry) : List TraineeEntry :=
  if e ∈ l then l else l ++ [e]

/-- Lines 197-226: the roster add/merge step — create the document with a
one-element array when absent, else `arrayUnion` the entry. -/
def addTraineeToRoster (roster : Option (List TraineeEntry))
    (e : TraineeEntry) : List TraineeEntry :=
  match roster with
  | none => [e]
  | some l => arrayUnion l e

/-- A `payment_orders` document (fields used by `verifyPayment`). -/
structure Order where
  userId : String
  userName : String
  userEmail : String
  courseId : String
  batchId : String
  amount : Nat
  receipt : String
  status : String
  paymentId : String
  deriving Repr, DecidableEq

/-- An `enrollments` document created by `verifyPayment` (lines 170-183). -/
structure Enrollment where
  userId : String
  userName : String
  userEmail : String
  courseId : String
  batchId : String
  paymentId : String
  orderId : String
  amount : Nat
  status : String
  receipt : String
  deriving Repr, DecidableEq

/-- A `courses` document (fields used by the seeding step). -/
structure Course where
  title : String
  instructor : String
  duration : String
  deriving Repr, DecidableEq

/-- The object written at `courses.{courseId}` of the user's `user_manage`
document (lines 260-273), timestamp fields omitted. -/
structure CourseSeed where
  name : String
  batchId : String
  attendanceRate : Nat
  progress : Nat
  averageScore : Nat
  status : String
  instructor : String
  duration : String
  deriving Repr, DecidableEq

/-- A `user_manage` document (fields used by `verifyPayment`). -/
structure UserDoc where
  fullName : String
  email : String
  courses : List (String × CourseSeed)
  enrolledCourseIds : List String
  deriving Repr, DecidableEq

/-- Firestore `update` on a dotted path `courses.{k}`: replace the binding of
`k` when present, else add it. -/
def setMapField {α : Type} (l : List (String × α)) (k : String) (v : α) :
    List (String × α) :=
  if (l.find? (fun kv => kv.1 = k)).isSome then
    l.map (fun kv => if kv.1 = k then (k, v) else kv)
  else l ++ [(k, v)]

/-- `arrayUnion` on the plain string array `enrolledCourseIds`. -/
def arrayUnionStr (l : List String) (e : String) : List String :=
  if e ∈ l then l else l ++ [e]

/-- The documents `verifyPayment` reads and writes: the named payment order,
the `user_manage` document of the order's user, the roster document of the
order's batch, the `courses` document of the order's course, and the
`enrollments` collection. -/
structure VerifyState where
  order : Option Order
  user : Option UserDoc
  roster : Option (List TraineeEntry)
  course : Option Course
  enrollments : List Enrollment
  deriving Repr, DecidableEq

/-- HTTP status, response message and resulting store state. -/
structure VerifyOutcome where
  status : Nat
  message : String
  state : VerifyState
  deriving Repr, DecidableEq

/-- payment.controller.js lines 113-309 (`verifyPayment`), with the HMAC
primitive abstracted as `hmacHex`.  The expected signature is the HMAC of
`` `orderId|paymentId` `` under the shared secret, compared for exact string
equality (lines 122-128); a mismatch answers 400 without touching the store
(lines 294-300).  On a match: 404 when the order is unknown; otherwise create
the enrollment, add/merge the trainee into the roster, mark the order paid,
and — when the course document exists and the order has a truthy userId —
seed `courses.{courseId}` with zeroed counters and union the course id into
`enrolledCourseIds`.  A missing `user_manage` document makes that last
`update` throw, which the outer catch converts into a 500 after the earlier
writes have already committed. -/
def verifyPayment (hmacHex : String → String → String) (keySecret : String)
    (orderId paymentId signature : String) (now : Nat) (st : VerifyState) :
    VerifyOutcome :=
  let body := orderId ++ "|" ++ paymentId
  let expectedSignature := hmacHex keySecret body
  if expectedSignature = signature then
    match st.order with
    | none => { status := 404, message := "Order not found", state := st }
    | some od =>
        let fetched := od.userId ≠ "" ∧ od.userId ≠ "guest" ∧ st.user.isSome
        let userName :=
          if h : fetched then ((st.user.get h.2.2).fullName) else od.userName
        let userEmail :=
          if h : fetched then
            (if (st.user.get h.2.2).email = "" then od.userEmail
             else (st.user.get h.2.2).email)
          else od.userEmail
        let enrollment : Enrollment :=
          { userId := od.userId, userName := userName, userEmail := userEmail
            courseId := od.courseId, batchId := od.batchId
            paymentId := paymentId, orderId := orderId, amount := od.amount
            status := "completed", receipt := od.receipt }
        let traineeEntry : TraineeEntry :=
          { userId := od.userId, name := userName, email := userEmail
            enrolledAt := now, courseId := od.courseId, batchId := od.batchId }
        let st1 : VerifyState :=
          { st with
            enrollments := st.enrollments ++ [enrollment]
            roster := some (addTraineeToRoster st.roster traineeEntry)
            order := some { od with status := "paid", paymentId := paymentId
                                    userName := userName, userEmail := userEmail } }
        if od.userId ≠ "" ∧ st1.course.isSome then
          match st1.user, st1.course with
          | some u, some c =>
              let seed : CourseSeed :=
                { name := if c.title = "" then "Unnamed Course" else c.title
                  batchId := od.batchId, attendanceRate := 0, progress := 0
                  averageScore := 0, status := "ongoing"
                  instructor := c.instructor, duration := c.duration }
              let u' :=
                { u with
                  courses := setMapField u.courses od.courseId seed
                  enrolledCourseIds := arrayUnionStr u.enrolledCourseIds od.courseId }
              { status := 200, message := "Payment verified successfully",
                state := { st1 with user := some u' } }
          | none, _ =>
              { status := 500, message := "Failed to verify payment", state := st1 }
          | _, none =>
              { status := 500, message := "Failed to verify payment", state := st1 }
        else
          { status := 200, message := "Payment verified successfully", state := st1 }
  else
    { status := 400, message := "Payment verification failed", state := st }

/-! ## Numeric policy lemmas -/

/-- The attendance-rate invariant exactly as the specification words it:
`round(100 * totalPresent / (totalPresent + totalAbsent))` rounded half up,
`0` when the denominator is `0`. -/
def specRate (p a : ℕ) : ℤ :=
  if p + a = 0 then 0 else ⌊100 * (p : ℚ) / ((p : ℚ) + (a : ℚ)) + 1 / 2⌋

theorem jsRound_ratio (p a : ℕ) (h : 0 < p + a) :
    jsRound ((p : ℚ) / ((p : ℚ) + (a : ℚ)) * 100) =
      ((200 * p + (p + a)) / (2 * (p + a)) : ℕ) := by
  have hden : ((p : ℚ) + (a : ℚ)) ≠ 0 := by
    have : (0 : ℚ) < (p : ℚ) + (a : ℚ) := by exact_mod_cast h
    exact ne_of_gt this
  have key : (p : ℚ) / ((p : ℚ) + (a : ℚ)) * 100 + 1 / 2 =
      ((200 * p + (p + a) : ℕ) : ℚ) / ((2 * (p + a) : ℕ) : ℚ) := by
    push_cast
    field_simp
    ring
  rw [jsRound, key, ← Int.natCast_floor_eq_floor (by positivity),
    Nat.floor_div_eq_div]

theorem computeRate_eq_specRate (p a : ℕ) : computeRate p a = specRate p a := by
  unfold computeRate specRate
  by_cases h : p + a = 0
  · simp [h]
  · have hpos : 0 < p + a := Nat.pos_of_ne_zero h
    rw [if_pos hpos, if_neg h]
    unfold jsRound
    congr 1
    ring

theorem specRate_nonneg (p a : ℕ) : 0 ≤ specRate p a := by
  unfold specRate
  split
  · exact le_refl 0
  · exact Int.floor_nonneg.2 (by positivity)

theorem specRate_natForm (p a : ℕ) :
    specRate p a =
      ((if p + a = 0 then 0 else (200 * p + (p + a)) / (2 * (p + a)) : ℕ) : ℤ) := by
  by_cases h : p + a = 0
  · unfold specRate
    simp [h]
  · rw [← computeRate_eq_specRate]
    unfold computeRate
    rw [if_pos (Nat.pos_of_ne_zero h), if_neg h,
      jsRound_ratio p a (Nat.pos_of_ne_zero h)]

/-- Both attendance mutators end by overwriting `attendanceRate` with
`computeRate` of the resulting counters. -/
theorem userApplyAttendance_rate (cd : CourseData) (ss : String)
    (ex : Option (List StudentDetail)) (inr : Bool) (d b sid : String) :
    (userApplyAttendance cd ss ex inr d b sid).attendanceRate =
      computeRate (userApplyAttendance cd ss ex inr d b sid).totalPresent
        (userApplyAttendance cd ss ex inr d b sid).totalAbsent := rfl

theorem userReverseAttendance_rate (cd : CourseData) (ss : String)
    (rd : Option String) :
    (userReverseAttendance cd ss rd).attendanceRate =
      computeRate (userReverseAttendance cd ss rd).totalPresent
        (userReverseAttendance cd ss rd).totalAbsent := rfl

/-- C6: after every attendance mutation — the create/update propagation
`userApplyAttendance` and the delete propagation `userReverseAttendance` —
the stored `attendanceRate` equals `round(100 * totalPresent /
(totalPresent + totalAbsent))` of the resulting counters, rounded half up
(`⌊q + 1/2⌋`), and is `0` when `totalPresent + totalAbsent = 0`; it is always
a nonnegative integer (the natural number `(200p + (p+a)) / (2(p+a))`), never
NaN or an error. -/
theorem attendance_rate_policy :
    (∀ (cd : CourseData) (ss : String) (ex : Option (List StudentDetail))
        (inr : Bool) (d b sid : String),
        (userApplyAttendance cd ss ex inr d b sid).attendanceRate =
          specRate (userApplyAttendance cd ss ex inr d b sid).totalPresent
            (userApplyAttendance cd ss ex inr d b sid).totalAbsent) ∧
    (∀ (cd : CourseData) (ss : String) (rd : Option String),
        (userReverseAttendance cd ss rd).attendanceRate =
          specRate (userReverseAttendance cd ss rd).totalPresent
            (userReverseAttendance cd ss rd).totalAbsent) ∧
    (∀ p a : ℕ,
        specRate p a =
          ((if p + a = 0 then 0 else (200 * p + (p + a)) / (2 * (p + a)) : ℕ) : ℤ)
        ∧ 0 ≤ specRate p a) := by
  refine ⟨fun cd ss ex inr d b sid => ?_, fun cd ss rd => ?_,
    fun p a => ⟨specRate_natForm p a, specRate_nonneg p a⟩⟩
  · rw [userApplyAttendance_rate, computeRate_eq_specRate]
  · rw [userReverseAttendance_rate, computeRate_eq_specRate]

/-! ## Average score: C1 -/

/-- The amended average-score rule the code actually implements: entries with
`totalMarks == 0` contribute nothing to the numerator, but the denominator is
the count of ALL history entries. -/
def amendedAverageScore (h : List HistEntry) : ℤ :=
  if h.length = 0 then 0
  else
    jsRound
      (((h.filter fun e => 0 < e.totalMarks).map
            fun e => (e.score : ℚ) / (e.totalMarks : ℚ) * 100).sum /
        (h.length : ℚ))

theorem totalScorePct_foldl (h : List HistEntry) :
    ∀ init : ℚ,
      h.foldl
          (fun sum e =>
            if e.totalMarks = 0 then sum
            else sum + (e.score : ℚ) / (e.totalMarks : ℚ) * 100)
          init =
        init +
          ((h.filter fun e => 0 < e.totalMarks).map
              fun e => (e.score : ℚ) / (e.totalMarks : ℚ) * 100).sum := by
  induction h with
  | nil => intro init; simp
  | cons e t ih =>
      intro init
      by_cases he : e.totalMarks = 0
      · have : ¬ 0 < e.totalMarks := by omega
        simp [List.foldl_cons, he, this, ih]
      · have : 0 < e.totalMarks := Nat.pos_of_ne_zero he
        simp [List.foldl_cons, he, this, ih]
        ring

theorem totalScorePct_eq_sum (h : List HistEntry) :
    totalScorePct h =
      ((h.filter fun e => 0 < e.totalMarks).map
          fun e => (e.score : ℚ) / (e.totalMarks : ℚ) * 100).sum := by
  unfold totalScorePct
  rw [totalScorePct_foldl h 0, zero_add]

theorem computeAverageScore_eq_amended (h : List HistEntry) :
    computeAverageScore h = amendedAverageScore h := by
  unfold computeAverageScore amendedAverageScore
  rw [totalScorePct_eq_sum]

/-- C1 (counterexample): with one prior history entry of `totalMarks = 0` and
a new submission scoring 50/50, the code's average is `round(100 / 2) = 50`
(denominator counts all entries) while the claim's rule (denominator = count
of entries with `totalMarks > 0`) demands `round(100 / 1) = 100`. -/
theorem average_score_denominator_counterexample :
    (applyAssignmentScore ⟨0, 0, 0, [], 0, [⟨"d0", "a0", 0, 5⟩]⟩
          "d1" "a1" 50 50).averageScore = 50 ∧
    specAverageScore
        (applyAssignmentScore ⟨0, 0, 0, [], 0, [⟨"d0", "a0", 0, 5⟩]⟩
            "d1" "a1" 50 50).assignmentHistory = 100 ∧
    (applyAssignmentScore ⟨0, 0, 0, [], 0, [⟨"d0", "a0", 0, 5⟩]⟩
          "d1" "a1" 50 50).averageScore ≠
      specAverageScore
        (applyAssignmentScore ⟨0, 0, 0, [], 0, [⟨"d0", "a0", 0, 5⟩]⟩
            "d1" "a1" 50 50).assignmentHistory := by
  have hh :
      (applyAssignmentScore ⟨0, 0, 0, [], 0, [⟨"d0", "a0", 0, 5⟩]⟩
          "d1" "a1" 50 50).assignmentHistory =
        [⟨"d0", "a0", 0, 5⟩, ⟨"d1", "a1", 50, 50⟩] := rfl
  have h1 : computeAverageScore [⟨"d0", "a0", 0, 5⟩, ⟨"d1", "a1", 50, 50⟩] =
      (50 : ℤ) := by
    unfold computeAverageScore totalScorePct jsRound
    norm_num
  have h2 : specAverageScore [⟨"d0", "a0", 0, 5⟩, ⟨"d1", "a1", 50, 50⟩] =
      (100 : ℤ) := by
    unfold specAverageScore totalScorePct jsRound
    norm_num
  refine ⟨?_, ?_, ?_⟩
  · show computeAverageScore [⟨"d0", "a0", 0, 5⟩, ⟨"d1", "a1", 50, 50⟩] = 50
    exact h1
  · rw [hh, h2]
  · show computeAverageScore [⟨"d0", "a0", 0, 5⟩, ⟨"d1", "a1", 50, 50⟩] ≠
      specAverageScore
        (applyAssignmentScore ⟨0, 0, 0, [], 0, [⟨"d0", "a0", 0, 5⟩]⟩
            "d1" "a1" 50 50).assignmentHistory
    rw [hh, h1, h2]
    decide

/-- C1 (amended): after `SubmitAssignment` upserts a score or
`DeleteAssignment` removes one, `averageScore` equals the rounded mean where
entries with `totalMarks == 0` contribute nothing to the numerator but the
denominator is the count of ALL history entries. -/
theorem average_score_amended :
    (∀ (cd : CourseData) (documentId assignmentName : String)
        (totalMarks score : Nat),
        (applyAssignmentScore cd documentId assignmentName
              totalMarks score).averageScore =
          amendedAverageScore
            (applyAssignmentScore cd documentId assignmentName
                totalMarks score).assignmentHistory) ∧
    (∀ (cd : CourseData) (documentId : String),
        (reverseAssignmentScore cd documentId).averageScore =
          amendedAverageScore
            (reverseAssignmentScore cd documentId).assignmentHistory) := by
  exact ⟨fun cd dI aN tM s => computeAverageScore_eq_amended _,
    fun cd dI => computeAverageScore_eq_amended _⟩

/-! ## Submission non-idempotence: C5 -/

/-- C5: with no prior submission by the trainee and no prior history entry
for the document, the first `SubmitAssignment` succeeds (200); an identical
second call answers 400 (the duplicate is an error) and leaves both the
assignment field and the course record exactly as the first call left them,
so the single successful submission contributes exactly one entry to
`submissions` and one entry to `assignmentHistory`. -/
theorem submit_assignment_non_idempotent
    (a : Assignment) (cd : CourseData)
    (documentId assignmentName traineeId email nm : String) (score : Nat)
    (hsub : a.submissions.find? (fun sub => sub.traineeId = traineeId) = none)
    (hhist :
      cd.assignmentHistory.findIdx? (fun e => e.assignmentId = documentId) =
        none) :
    ∃ a' cd',
      submitAssignment a cd documentId assignmentName traineeId email nm
          score =
        { status := 200, assignment := a', courseData := cd' } ∧
      submitAssignment a' cd' documentId assignmentName traineeId email nm
          score =
        { status := 400, assignment := a', courseData := cd' } ∧
      (a'.submissions.filter fun s => s.traineeId = traineeId).length = 1 ∧
      (cd'.assignmentHistory.filter fun e =>
          e.assignmentId = documentId).length = 1 := by
  refine ⟨{ a with
      submissions := a.submissions ++
        [{ traineeId := traineeId, email := email, name := nm,
           score := score }] },
    applyAssignmentScore cd documentId assignmentName a.totalMarks score,
    ?_, ?_, ?_, ?_⟩
  · unfold submitAssignment
    rw [hsub]
  · unfold submitAssignment
    rw [List.find?_append, hsub]
    simp
  · rw [List.filter_append]
    have h1 : a.submissions.filter (fun s => s.traineeId = traineeId) = [] :=
      List.filter_eq_nil_iff.2 (by
        intro x hx
        have := List.find?_eq_none.1 hsub x hx
        simpa using this)
    simp [h1]
  · show ((upsertHistory cd.assignmentHistory _).filter fun e =>
        e.assignmentId = documentId).length = 1
    unfold upsertHistory
    rw [hhist, List.filter_append]
    have h1 : cd.assignmentHistory.filter
        (fun e => e.assignmentId = documentId) = [] :=
      List.filter_eq_nil_iff.2 (by
        intro x hx
        have := List.findIdx?_eq_none_iff.1 hhist x hx
        simpa using this)
    simp [h1]

/-- Concrete instance of C5: an empty assignment and course record, one
submission of 40 marks by trainee `"t1"`, retried once. -/
theorem submit_assignment_non_idempotent_witness :
    ∃ a' cd',
      submitAssignment ⟨"c1", "cn", "b1", 50, []⟩ ⟨0, 0, 0, [], 0, []⟩
          "05-04-25-b1" "quiz" "t1" "t1@x" "T" 40 =
        { status := 200, assignment := a', courseData := cd' } ∧
      submitAssignment a' cd' "05-04-25-b1" "quiz" "t1" "t1@x" "T" 40 =
        { status := 400, assignment := a', courseData := cd' } ∧
      (a'.submissions.filter fun s => s.traineeId = "t1").length = 1 ∧
      (cd'.assignmentHistory.filter fun e =>
          e.assignmentId = "05-04-25-b1").length = 1 :=
  submit_assignment_non_idempotent ⟨"c1", "cn", "b1", 50, []⟩
    ⟨0, 0, 0, [], 0, []⟩ "05-04-25-b1" "quiz" "t1" "t1@x" "T" 40 rfl rfl

/-! ## Assignment deletion at the document level: C9 -/

theorem lookupField_filter_ne {α : Type} (l : List (String × α))
    (name k : String) (hk : k ≠ name) :
    lookupField (l.filter fun kv => kv.1 ≠ name) k = lookupField l k := by
  induction l with
  | nil => rfl
  | cons kv t ih =>
      unfold lookupField at ih ⊢
      by_cases h1 : kv.1 = name
      · have h2 : ¬kv.1 = k := fun e => hk (e ▸ h1)
        rw [List.filter_cons_of_neg (by simpa using h1),
          List.find?_cons_of_neg _ (by simpa using h2)]
        exact ih
      · rw [List.filter_cons_of_pos (by simpa using h1)]
        by_cases h2 : kv.1 = k
        · rw [List.find?_cons_of_pos _ (by simpa using h2),
            List.find?_cons_of_pos _ (by simpa using h2)]
        · rw [List.find?_cons_of_neg _ (by simpa using h2),
            List.find?_cons_of_neg _ (by simpa using h2)]
          exact ih

theorem lookupField_filter_self {α : Type} (l : List (String × α))
    (name : String) :
    lookupField (l.filter fun kv => kv.1 ≠ name) name = none := by
  unfold lookupField
  rw [List.find?_eq_none.2 (fun kv hkv => by
    simpa using (List.mem_filter.1 hkv).2)]
  rfl

/-- C9: when the named assignment field exists, deleting it deletes the whole
document when it is the only assignment field, and otherwise removes exactly
that field: the result is the original field list minus the named key, the
named key no longer resolves, and every sibling key still resolves to its
unchanged value. -/
theorem delete_assignment_only_or_field {α : Type}
    (fields : List (String × α)) (name : String) (a : α)
    (hfound : lookupField fields name = some a) :
    (fields.length = 1 → deleteAssignmentField fields name = .docDeleted) ∧
    (1 < fields.length →
      deleteAssignmentField fields name =
          .fieldDeleted (fields.filter fun kv => kv.1 ≠ name) ∧
        lookupField (fields.filter fun kv => kv.1 ≠ name) name = none ∧
        ∀ k, k ≠ name →
          lookupField (fields.filter fun kv => kv.1 ≠ name) k =
            lookupField fields k) := by
  constructor
  · intro hlen
    match fields, hlen with
    | [kv], _ =>
        have hkey : kv.1 = name := by
          by_contra hne
          simp [lookupField, List.find?, hne] at hfound
        unfold deleteAssignmentField
        rw [hfound]
        rw [if_pos ⟨rfl, by simpa using hkey⟩]
  · intro hlen
    have hne1 : ¬(fields.length = 1 ∧
        (fields.map Prod.fst).headD "" = name) := by
      rintro ⟨h1, -⟩
      omega
    refine ⟨?_, lookupField_filter_self fields name,
      fun k hk => lookupField_filter_ne fields name k hk⟩
    unfold deleteAssignmentField
    rw [hfound, if_neg hne1]

/-- Concrete instance of C9: a singleton document is deleted wholesale; a
two-field document loses only the named field and keeps its sibling. -/
theorem delete_assignment_only_or_field_witness :
    deleteAssignmentField [("quiz", (1 : Nat))] "quiz" = .docDeleted ∧
    (deleteAssignmentField [("quiz", (1 : Nat)), ("hw", 2)] "quiz" =
        .fieldDeleted ([("quiz", (1 : Nat)), ("hw", 2)].filter
          fun kv => kv.1 ≠ "quiz") ∧
      lookupField ([("quiz", (1 : Nat)), ("hw", 2)].filter
          fun kv => kv.1 ≠ "quiz") "quiz" = none ∧
      ∀ k, k ≠ "quiz" →
        lookupField ([("quiz", (1 : Nat)), ("hw", 2)].filter
            fun kv => kv.1 ≠ "quiz") k =
          lookupField [("quiz", (1 : Nat)), ("hw", 2)] k) :=
  ⟨(delete_assignment_only_or_field [("quiz", (1 : Nat))] "quiz" 1 rfl).1 rfl,
    (delete_assignment_only_or_field [("quiz", (1 : Nat)), ("hw", 2)] "quiz" 1
        rfl).2 (by decide)⟩

/-! ## Batch identifier resolution: C2 -/

/-- C2 (counterexample): the handler hardcodes the year segment `"25"`, so
`B-FD-26-A` resolves to base document `B-FD-25`, not `B-FD-26` — the claim's
"first three segments joined" rule fails. -/
theorem resolve_batch_year_counterexample :
    resolveBatchBase "B-FD-26-A" = ("B-FD-25", "A") ∧
    (resolveBatchBase "B-FD-26-A").1 ≠ "B-FD-26" := by
  constructor
  · rfl
  · decide

/-- C2 (amended): for a batch id of the form
`<prefix>-<code>-<year>-<suffix>`, resolution takes the first TWO segments
joined with the literal year `"25"` as the base document id and the last
segment as the suffix; then, when no field of the base document is keyed by
the full batch id, it selects the (last) field whose key contains `"-"` and
whose `suffix` attribute equals that suffix, regardless of the field's own
key name.  In particular `B-FD-25-A` resolves to base document `B-FD-25`
with suffix `A`. -/
theorem resolve_batch_amended
    (batchId p c y s : String) (fields : List (String × BatchFieldVal))
    (k : String)
    (hsplit : jsSplit batchId '-' = [p, c, y, s])
    (hdirect : lookupField fields batchId = none)
    (hscan : scanBySuffix fields s = some k) :
    resolveBatch batchId fields = (p ++ "-" ++ c ++ "-25", s, some k) := by
  unfold resolveBatch resolveBatchBase resolveBatchField
  rw [hsplit]
  simp [List.getD, List.getLastD, hdirect, hscan]

/-- Concrete instance of C2 (amended): `B-FD-25-A` against a base document
whose matching field is keyed by an unrelated hyphenated name. -/
theorem resolve_batch_amended_witness :
    resolveBatch "B-FD-25-A"
        [("createdAt", .meta), ("odd-key", .details "A")] =
      ("B-FD-25", "A", some "odd-key") :=
  resolve_batch_amended "B-FD-25-A" "B" "FD" "25" "A"
    [("createdAt", .meta), ("odd-key", .details "A")] "odd-key"
    (by decide) rfl (by decide)

/-! ## Payment verification: C7, C8, C10 -/

theorem lookupField_map_set {α : Type} (l : List (String × α)) (k : String)
    (v : α) (h : (l.find? fun kv => kv.1 = k).isSome) :
    lookupField (l.map fun kv => if kv.1 = k then (k, v) else kv) k =
      some v := by
  induction l with
  | nil => simp at h
  | cons kv t ih =>
      by_cases hk : kv.1 = k
      · unfold lookupField
        rw [List.map_cons, if_pos hk, List.find?_cons_of_pos _ (by simp)]
        rfl
      · unfold lookupField at ih ⊢
        rw [List.map_cons, if_neg hk,
          List.find?_cons_of_neg _ (by simpa using hk)]
        apply ih
        rwa [List.find?_cons_of_neg _ (by simpa using hk)] at h

theorem lookupField_setMapField_self {α : Type} (l : List (String × α))
    (k : String) (v : α) :
    lookupField (setMapField l k v) k = some v := by
  unfold setMapField
  by_cases h : (l.find? fun kv => kv.1 = k).isSome
  · rw [if_pos h]
    exact lookupField_map_set l k v h
  · rw [if_neg h]
    unfold lookupField
    rw [List.find?_append, Option.not_isSome_iff_eq_none.1 h,
      List.find?_cons_of_pos _ (by simp)]
    rfl

/-- C7: when the signature matches and the referenced order, user and course
documents exist (with a non-empty, non-guest user id), `verifyPayment`
performs all three propagation steps: it appends an enrollment record for
the order's user/course/batch with status `"completed"`, adds/merges a
trainee entry for that user into the batch roster document, and seeds the
user's `courses.{courseId}` record with zeroed `attendanceRate`, `progress`
and `averageScore` counters and status `"ongoing"` (the order itself being
marked `"paid"`). -/
theorem verify_payment_propagates
    (hmacHex : String → String → String)
    (keySecret orderId paymentId signature : String) (now : Nat)
    (od : Order) (u : UserDoc) (c : Course)
    (roster : Option (List TraineeEntry)) (enr : List Enrollment)
    (hsig : hmacHex keySecret (orderId ++ "|" ++ paymentId) = signature)
    (hid : od.userId ≠ "") (hguest : od.userId ≠ "guest") :
    ∃ (en : Enrollment) (te : TraineeEntry) (u' : UserDoc) (seed : CourseSeed),
      verifyPayment hmacHex keySecret orderId paymentId signature now
          ⟨some od, some u, roster, some c, enr⟩ =
        { status := 200
          message := "Payment verified successfully"
          state :=
            ⟨some { od with
                status := "paid"
                paymentId := paymentId
                userName := u.fullName
                userEmail := if u.email = "" then od.userEmail else u.email },
              some u', some (addTraineeToRoster roster te), some c,
              enr ++ [en]⟩ } ∧
      en.userId = od.userId ∧ en.courseId = od.courseId ∧
      en.batchId = od.batchId ∧ en.status = "completed" ∧
      te.userId = od.userId ∧ te.batchId = od.batchId ∧
      lookupField u'.courses od.courseId = some seed ∧
      seed.attendanceRate = 0 ∧ seed.progress = 0 ∧ seed.averageScore = 0 ∧
      seed.status = "ongoing" := by
  have hfetched : od.userId ≠ "" ∧ od.userId ≠ "guest" ∧
      (some u : Option UserDoc).isSome := ⟨hid, hguest, rfl⟩
  refine
    ⟨{ userId := od.userId
       userName := u.fullName
       userEmail := if u.email = "" then od.userEmail else u.email
       courseId := od.courseId
       batchId := od.batchId
       paymentId := paymentId
       orderId := orderId
       amount := od.amount
       status := "completed"
       receipt := od.receipt },
     { userId := od.userId
       name := u.fullName
       email := if u.email = "" then od.userEmail else u.email
       enrolledAt := now
       courseId := od.courseId
       batchId := od.batchId },
     { u with
       courses := setMapField u.courses od.courseId
         { name := if c.title = "" then "Unnamed Course" else c.title
           batchId := od.batchId
           attendanceRate := 0
           progress := 0
           averageScore := 0
           status := "ongoing"
           instructor := c.instructor
           duration := c.duration }
       enrolledCourseIds := arrayUnionStr u.enrolledCourseIds od.courseId },
     { name := if c.title = "" then "Unnamed Course" else c.title
       batchId := od.batchId
       attendanceRate := 0
       progress := 0
       averageScore := 0
       status := "ongoing"
       instructor := c.instructor
       duration := c.duration },
     ?_, rfl, rfl, rfl, rfl, rfl, rfl,
     lookupField_setMapField_self u.courses od.courseId _,
     rfl, rfl, rfl, rfl⟩
  unfold verifyPayment
  simp only [hsig, if_pos, dif_pos hfetched, Option.get]
  rw [if_pos ⟨hid, rfl⟩]

/-- Concrete instance of C7: a fully populated store and a matching
signature. -/
theorem verify_payment_propagates_witness :
    ∃ (en : Enrollment) (te : TraineeEntry) (u' : UserDoc) (seed : CourseSeed),
      verifyPayment (fun _ _ => "sig") "k" "o1" "p1" "sig" 7
          ⟨some ⟨"u1", "N", "E", "c1", "b1", 100, "r", "created", ""⟩,
            some ⟨"Full", "fe", [], []⟩, some [], some ⟨"Course", "I", "D"⟩,
            []⟩ =
        { status := 200
          message := "Payment verified successfully"
          state :=
            ⟨some { (⟨"u1", "N", "E", "c1", "b1", 100, "r", "created", ""⟩ :
                  Order) with
                status := "paid"
                paymentId := "p1"
                userName := (⟨"Full", "fe", [], []⟩ : UserDoc).fullName
                userEmail :=
                  if (⟨"Full", "fe", [], []⟩ : UserDoc).email = "" then "E"
                  else (⟨"Full", "fe", [], []⟩ : UserDoc).email },
              some u', some (addTraineeToRoster (some []) te),
              some ⟨"Course", "I", "D"⟩, [] ++ [en]⟩ } ∧
      en.userId = "u1" ∧ en.courseId = "c1" ∧ en.batchId = "b1" ∧
      en.status = "completed" ∧ te.userId = "u1" ∧ te.batchId = "b1" ∧
      lookupField u'.courses "c1" = some seed ∧
      seed.attendanceRate = 0 ∧ seed.progress = 0 ∧ seed.averageScore = 0 ∧
      seed.status = "ongoing" :=
  verify_payment_propagates (fun _ _ => "sig") "k" "o1" "p1" "sig" 7
    ⟨"u1", "N", "E", "c1", "b1", 100, "r", "created", ""⟩
    ⟨"Full", "fe", [], []⟩ ⟨"Course", "I", "D"⟩ (some []) [] rfl
    (by decide) (by decide)

/-- C8 (counterexample): at a concrete mismatching signature the handler
answers HTTP 400 — not 401 and not 403, the codes the specification's error
taxonomy assigns to `Unauthorized`/`Unauthenticated` — while indeed
performing no writes. -/
theorem verify_payment_status_counterexample :
    (verifyPayment (fun _ _ => "good") "k" "o1" "p1" "bad" 0
          ⟨some ⟨"u1", "N", "E", "c1", "b1", 100, "r", "created", ""⟩,
            some ⟨"Full", "fe", [], []⟩, some [], some ⟨"Course", "I", "D"⟩,
            []⟩).status = 400 ∧
    ¬((verifyPayment (fun _ _ => "good") "k" "o1" "p1" "bad" 0
            ⟨some ⟨"u1", "N", "E", "c1", "b1", 100, "r", "created", ""⟩,
              some ⟨"Full", "fe", [], []⟩, some [],
              some ⟨"Course", "I", "D"⟩, []⟩).status = 401 ∨
        (verifyPayment (fun _ _ => "good") "k" "o1" "p1" "bad" 0
            ⟨some ⟨"u1", "N", "E", "c1", "b1", 100, "r", "created", ""⟩,
              some ⟨"Full", "fe", [], []⟩, some [],
              some ⟨"Course", "I", "D"⟩, []⟩).status = 403) ∧
    (verifyPayment (fun _ _ => "good") "k" "o1" "p1" "bad" 0
          ⟨some ⟨"u1", "N", "E", "c1", "b1", 100, "r", "created", ""⟩,
            some ⟨"Full", "fe", [], []⟩, some [], some ⟨"Course", "I", "D"⟩,
            []⟩).state =
      ⟨some ⟨"u1", "N", "E", "c1", "b1", 100, "r", "created", ""⟩,
        some ⟨"Full", "fe", [], []⟩, some [], some ⟨"Course", "I", "D"⟩,
        []⟩ := by
  refine ⟨rfl, ?_, rfl⟩
  decide

/-- C8 (amended): when the supplied signature differs from the HMAC of
`` `orderId|paymentId` `` under the shared secret, `verifyPayment` fails with
HTTP 400 and message "Payment verification failed" and performs no writes:
the whole store — enrollments, roster, order status, user document — is
returned unchanged. -/
theorem verify_payment_bad_signature
    (hmacHex : String → String → String)
    (keySecret orderId paymentId signature : String) (now : Nat)
    (st : VerifyState)
    (hne : hmacHex keySecret (orderId ++ "|" ++ paymentId) ≠ signature) :
    verifyPayment hmacHex keySecret orderId paymentId signature now st =
      { status := 400, message := "Payment verification failed",
        state := st } := by
  unfold verifyPayment
  rw [if_neg hne]

/-- Concrete instance of C8 (amended): a mismatching signature against a
populated store. -/
theorem verify_payment_bad_signature_witness :
    verifyPayment (fun _ _ => "good") "k" "o1" "p1" "bad" 0
        ⟨some ⟨"u1", "N", "E", "c1", "b1", 100, "r", "created", ""⟩,
          some ⟨"Full", "fe", [], []⟩, some [], some ⟨"Course", "I", "D"⟩,
          []⟩ =
      { status := 400, message := "Payment verification failed",
        state :=
          ⟨some ⟨"u1", "N", "E", "c1", "b1", 100, "r", "created", ""⟩,
            some ⟨"Full", "fe", [], []⟩, some [], some ⟨"Course", "I", "D"⟩,
            []⟩ } :=
  verify_payment_bad_signature (fun _ _ => "good") "k" "o1" "p1" "bad" 0
    ⟨some ⟨"u1", "N", "E", "c1", "b1", 100, "r", "created", ""⟩,
      some ⟨"Full", "fe", [], []⟩, some [], some ⟨"Course", "I", "D"⟩, []⟩
    (by decide)

/-- C10 (code bug): the roster add/merge step embeds the wall-clock
`enrolledAt` into the array element, and `arrayUnion` deduplicates only on
whole-element equality, so performing the step twice for the same
`(userId, batchId)` at different times appends a second entry for that user
— contradicting both the claim and the code's own comment "Add trainee to
existing array if not already present". -/
theorem roster_add_merge_not_idempotent :
    addTraineeToRoster (some (addTraineeToRoster none
          ⟨"u1", "N", "E", 0, "c1", "b1"⟩)) ⟨"u1", "N", "E", 1, "c1", "b1"⟩ =
      [⟨"u1", "N", "E", 0, "c1", "b1"⟩, ⟨"u1", "N", "E", 1, "c1", "b1"⟩] ∧
    ((addTraineeToRoster (some (addTraineeToRoster none
            ⟨"u1", "N", "E", 0, "c1", "b1"⟩))
          ⟨"u1", "N", "E", 1, "c1", "b1"⟩).filter fun te =>
        te.userId = "u1").length = 2 ∧
    addTraineeToRoster (some (addTraineeToRoster none
          ⟨"u1", "N", "E", 0, "c1", "b1"⟩)) ⟨"u1", "N", "E", 1, "c1", "b1"⟩ ≠
      addTraineeToRoster none ⟨"u1", "N", "E", 0, "c1", "b1"⟩ := by
  refine ⟨?_, ?_, ?_⟩ <;> decide

/-! ## Attendance update/delete semantics: C3, C4 -/

theorem statusMapLookup_no_match (details : List StudentDetail) (id : String)
    (acc : Option String) (h : ∀ s ∈ details, ¬s.studentId = id) :
    details.foldl
        (fun acc s => if s.studentId = id then some s.status else acc) acc =
      acc := by
  induction details generalizing acc with
  | nil => rfl
  | cons x t ih =>
      rw [List.foldl_cons, if_neg (h x (List.mem_cons_self x t))]
      exact ih acc fun s hs => h s (List.mem_cons_of_mem x hs)

theorem statusMapLookup_eq_find? (details : List StudentDetail) (id : String)
    (hnodup : (details.map fun s => s.studentId).Nodup) :
    statusMapLookup details id =
      (details.find? fun s => s.studentId = id).map fun s => s.status := by
  induction details with
  | nil => rfl
  | cons x t ih =>
      have hx_not_t : ∀ s ∈ t, s.studentId ≠ x.studentId := by
        intro s hs he
        apply (List.nodup_cons.1 hnodup).1
        show x.studentId ∈ List.map (fun s => s.studentId) t
        rw [← he]
        exact List.mem_map_of_mem _ hs
      by_cases hx : x.studentId = id
      · unfold statusMapLookup
        rw [List.foldl_cons, if_pos hx,
          statusMapLookup_no_match t id (some x.status)
            (fun s hs he => hx_not_t s hs (he.trans hx.symm)),
          List.find?_cons_of_pos _ (by simpa using hx)]
        rfl
      · unfold statusMapLookup at ih ⊢
        rw [List.foldl_cons, if_neg hx,
          List.find?_cons_of_neg _ (by simpa using hx)]
        exact ih (List.nodup_cons.1 hnodup).2

theorem find?_studentId_self (details : List StudentDetail)
    (hnodup : (details.map fun s => s.studentId).Nodup)
    (s : StudentDetail) (hs : s ∈ details) :
    details.find? (fun x => x.studentId = s.studentId) = some s := by
  induction details with
  | nil => cases hs
  | cons x t ih =>
      rcases List.mem_cons.1 hs with rfl | hst
      · exact List.find?_cons_of_pos _ (by simp)
      · have hxi : ¬x.studentId = s.studentId := by
          intro he
          apply (List.nodup_cons.1 hnodup).1
          show x.studentId ∈ List.map (fun s => s.studentId) t
          rw [he]
          exact List.mem_map_of_mem _ hst
        rw [List.find?_cons_of_neg _ (by simpa using hxi)]
        exact ih (List.nodup_cons.1 hnodup).2 hst

theorem map_normDetail_eq (details : List StudentDetail)
    (h : ∀ s ∈ details, normDetail s = s) :
    details.map normDetail = details :=
  (List.map_congr_left h).trans (List.map_id details)

/-- Second-call roster update with the same stored status: no change. -/
theorem rosterApplyTrainee_same (details : List StudentDetail) (t : Trainee)
    (hnodup : (details.map fun s => s.studentId).Nodup) :
    rosterApplyTrainee false (some details) details t = t := by
  unfold rosterApplyTrainee
  rw [statusMapLookup_eq_find? details t.userId hnodup]
  cases hf : details.find? fun s => s.studentId = t.userId with
  | none => rfl
  | some s =>
      simp only [hf, Option.map_some', Bool.false_eq_true, if_false]
      rw [if_neg (by rintro ⟨h1, h2⟩; rw [h1] at h2; exact absurd h2 (by decide)),
        if_neg (by rintro ⟨h1, h2⟩; rw [h1] at h2; exact absurd h2 (by decide))]

/-- Second-call per-user update with the same stored status: no change. -/
theorem userApplyAttendance_same (details : List StudentDetail)
    (cd : CourseData) (s : StudentDetail) (d b : String)
    (hnodup : (details.map fun x => x.studentId).Nodup)
    (hs : s ∈ details)
    (hidx : (cd.attendanceHistory.findIdx? fun e => e.date = d).isSome)
    (hrate : cd.attendanceRate = computeRate cd.totalPresent cd.totalAbsent) :
    userApplyAttendance cd s.status (some details) false d b s.studentId =
      cd := by
  obtain ⟨i, hi⟩ := Option.isSome_iff_exists.1 hidx
  unfold userApplyAttendance
  simp [hi, find?_studentId_self details hnodup s hs, ← hrate]

/-- Second-call roster update when the stored status was `"Present"` and the
new status is `"Absent"`: one unit moves. -/
theorem rosterApplyTrainee_flip_PA (ex details₂ : List StudentDetail)
    (t : Trainee) (es : StudentDetail)
    (hlook : statusMapLookup details₂ t.userId = some "Absent")
    (hfind : ex.find? (fun x => x.studentId = t.userId) = some es)
    (hes : es.status = "Present") :
    rosterApplyTrainee false (some ex) details₂ t =
      { t with totalPresent := t.totalPresent - 1
               totalAbsent := t.totalAbsent + 1 } := by
  unfold rosterApplyTrainee
  simp [hlook, hfind, hes]

/-- Second-call roster update when the stored status was `"Absent"` and the
new status is `"Present"`: one unit moves back. -/
theorem rosterApplyTrainee_flip_AP (ex details₂ : List StudentDetail)
    (t : Trainee) (es : StudentDetail)
    (hlook : statusMapLookup details₂ t.userId = some "Present")
    (hfind : ex.find? (fun x => x.studentId = t.userId) = some es)
    (hes : es.status = "Absent") :
    rosterApplyTrainee false (some ex) details₂ t =
      { t with totalPresent := t.totalPresent + 1
               totalAbsent := t.totalAbsent - 1 } := by
  unfold rosterApplyTrainee
  simp [hlook, hfind, hes]

/-- Second-call per-user update when the stored status was `"Present"` and
the new status is `"Absent"`: the same-date history entry is replaced in
place and one unit moves. -/
theorem userApplyAttendance_flip_PA (ex : List StudentDetail)
    (cd : CourseData) (es : StudentDetail) (d b sid : String) (i : ℕ)
    (hidx : cd.attendanceHistory.findIdx? (fun e => e.date = d) = some i)
    (hfind : ex.find? (fun x => x.studentId = sid) = some es)
    (hes : es.status = "Present") :
    userApplyAttendance cd "Absent" (some ex) false d b sid =
      { cd with
        attendanceHistory := cd.attendanceHistory.set i ⟨d, "Absent", b⟩
        totalPresent := cd.totalPresent - 1
        totalAbsent := cd.totalAbsent + 1
        attendanceRate :=
          computeRate (cd.totalPresent - 1) (cd.totalAbsent + 1) } := by
  unfold userApplyAttendance
  simp [hidx, hfind, hes]

/-- Second-call per-user update when the stored status was `"Absent"` and the
new status is `"Present"`. -/
theorem userApplyAttendance_flip_AP (ex : List StudentDetail)
    (cd : CourseData) (es : StudentDetail) (d b sid : String) (i : ℕ)
    (hidx : cd.attendanceHistory.findIdx? (fun e => e.date = d) = some i)
    (hfind : ex.find? (fun x => x.studentId = sid) = some es)
    (hes : es.status = "Absent") :
    userApplyAttendance cd "Present" (some ex) false d b sid =
      { cd with
        attendanceHistory := cd.attendanceHistory.set i ⟨d, "Present", b⟩
        totalPresent := cd.totalPresent + 1
        totalAbsent := cd.totalAbsent - 1
        attendanceRate :=
          computeRate (cd.totalPresent + 1) (cd.totalAbsent - 1) } := by
  unfold userApplyAttendance
  simp [hidx, hfind, hes]

/-- C3: on the update path (explicit documentId, document exists, so
`isNewDateRecord = false` and the stored `studentDetails` are those of the
first call): (1) with identical `studentDetails` (distinct student ids,
statuses already normalized) every roster trainee is left unchanged, and
(2) each student's course record — holding a history entry for the date and a
rate consistent with its counters, as the first call left it — is returned
unchanged; (3,4) when the stored status is `"Present"` and the new status is
`"Absent"`, exactly one unit moves from `totalPresent` to `totalAbsent` in
the roster (sum preserved) and (5,6, and symmetrically for
`"Absent"`→`"Present"`) in the course record, whose same-date history entry
is replaced in place — the history length is preserved, not duplicated. -/
theorem record_attendance_second_call_semantics :
    (∀ (details : List StudentDetail) (trainees : List Trainee),
        (details.map fun s => s.studentId).Nodup →
        (∀ s ∈ details, normDetail s = s) →
        trainees.map
            (rosterApplyTrainee false (some (details.map normDetail))
              details) =
          trainees) ∧
    (∀ (details : List StudentDetail) (cd : CourseData) (s : StudentDetail)
        (d b : String),
        (details.map fun x => x.studentId).Nodup →
        (∀ x ∈ details, normDetail x = x) →
        s ∈ details →
        (cd.attendanceHistory.findIdx? fun e => e.date = d).isSome →
        cd.attendanceRate = computeRate cd.totalPresent cd.totalAbsent →
        userApplyAttendance cd s.status (some (details.map normDetail)) false
            d b s.studentId = cd) ∧
    (∀ (ex details₂ : List StudentDetail) (t : Trainee) (es : StudentDetail),
        statusMapLookup details₂ t.userId = some "Absent" →
        ex.find? (fun x => x.studentId = t.userId) = some es →
        es.status = "Present" → 1 ≤ t.totalPresent →
        (rosterApplyTrainee false (some ex) details₂ t).totalPresent + 1 =
            t.totalPresent ∧
          (rosterApplyTrainee false (some ex) details₂ t).totalAbsent =
            t.totalAbsent + 1 ∧
          (rosterApplyTrainee false (some ex) details₂ t).totalPresent +
              (rosterApplyTrainee false (some ex) details₂ t).totalAbsent =
            t.totalPresent + t.totalAbsent) ∧
    (∀ (ex details₂ : List StudentDetail) (t : Trainee) (es : StudentDetail),
        statusMapLookup details₂ t.userId = some "Present" →
        ex.find? (fun x => x.studentId = t.userId) = some es →
        es.status = "Absent" → 1 ≤ t.totalAbsent →
        (rosterApplyTrainee false (some ex) details₂ t).totalPresent =
            t.totalPresent + 1 ∧
          (rosterApplyTrainee false (some ex) details₂ t).totalAbsent + 1 =
            t.totalAbsent ∧
          (rosterApplyTrainee false (some ex) details₂ t).totalPresent +
              (rosterApplyTrainee false (some ex) details₂ t).totalAbsent =
            t.totalPresent + t.totalAbsent) ∧
    (∀ (ex : List StudentDetail) (cd : CourseData) (es : StudentDetail)
        (d b sid : String) (i : ℕ),
        cd.attendanceHistory.findIdx? (fun e => e.date = d) = some i →
        ex.find? (fun x => x.studentId = sid) = some es →
        es.status = "Present" → 1 ≤ cd.totalPresent →
        (userApplyAttendance cd "Absent" (some ex) false d b
              sid).attendanceHistory =
            cd.attendanceHistory.set i ⟨d, "Absent", b⟩ ∧
          (userApplyAttendance cd "Absent" (some ex) false d b
                sid).attendanceHistory.length =
            cd.attendanceHistory.length ∧
          (userApplyAttendance cd "Absent" (some ex) false d b
                sid).totalPresent + 1 =
            cd.totalPresent ∧
          (userApplyAttendance cd "Absent" (some ex) false d b
                sid).totalAbsent =
            cd.totalAbsent + 1 ∧
          (userApplyAttendance cd "Absent" (some ex) false d b
                sid).totalPresent +
              (userApplyAttendance cd "Absent" (some ex) false d b
                sid).totalAbsent =
            cd.totalPresent + cd.totalAbsent) ∧
    (∀ (ex : List StudentDetail) (cd : CourseData) (es : StudentDetail)
        (d b sid : String) (i : ℕ),
        cd.attendanceHistory.findIdx? (fun e => e.date = d) = some i →
        ex.find? (fun x => x.studentId = sid) = some es →
        es.status = "Absent" → 1 ≤ cd.totalAbsent →
        (userApplyAttendance cd "Present" (some ex) false d b
              sid).attendanceHistory =
            cd.attendanceHistory.set i ⟨d, "Present", b⟩ ∧
          (userApplyAttendance cd "Present" (some ex) false d b
                sid).attendanceHistory.length =
            cd.attendanceHistory.length ∧
          (userApplyAttendance cd "Present" (some ex) false d b
                sid).totalPresent =
            cd.totalPresent + 1 ∧
          (userApplyAttendance cd "Present" (some ex) false d b
                sid).totalAbsent + 1 =
            cd.totalAbsent ∧
          (userApplyAttendance cd "Present" (some ex) false d b
                sid).totalPresent +
              (userApplyAttendance cd "Present" (some ex) false d b
                sid).totalAbsent =
            cd.totalPresent + cd.totalAbsent) := by
  refine ⟨?_, ?_, ?_, ?_, ?_, ?_⟩
  · intro details trainees hnodup hnorm
    rw [map_normDetail_eq details hnorm]
    exact (List.map_congr_left fun t _ =>
      rosterApplyTrainee_same details t hnodup).trans (List.map_id trainees)
  · intro details cd s d b hnodup hnorm hs hidx hrate
    rw [map_normDetail_eq details hnorm]
    exact userApplyAttendance_same details cd s d b hnodup hs hidx hrate
  · intro ex details₂ t es hlook hfind hes hp
    rw [rosterApplyTrainee_flip_PA ex details₂ t es hlook hfind hes]
    refine ⟨?_, rfl, ?_⟩ <;> dsimp only <;> omega
  · intro ex details₂ t es hlook hfind hes ha
    rw [rosterApplyTrainee_flip_AP ex details₂ t es hlook hfind hes]
    refine ⟨rfl, ?_, ?_⟩ <;> dsimp only <;> omega
  · intro ex cd es d b sid i hidx hfind hes hp
    rw [userApplyAttendance_flip_PA ex cd es d b sid i hidx hfind hes]
    refine ⟨rfl, List.length_set .., ?_, rfl, ?_⟩ <;> dsimp only <;> omega
  · intro ex cd es d b sid i hidx hfind hes ha
    rw [userApplyAttendance_flip_AP ex cd es d b sid i hidx hfind hes]
    refine ⟨rfl, List.length_set .., rfl, ?_, ?_⟩ <;> dsimp only <;> omega

/-- Concrete instances of C3: a one-student batch marked Present, retried
identically (no change) and then flipped to Absent (one unit moves, the
history entry is replaced). -/
theorem record_attendance_second_call_semantics_witness :
    ([⟨"T", 1, 0⟩] : List Trainee).map
        (rosterApplyTrainee false
          (some ([⟨"T", "n", "Present"⟩].map normDetail))
          [⟨"T", "n", "Present"⟩]) =
      [⟨"T", 1, 0⟩] ∧
    userApplyAttendance ⟨1, 0, 100, [⟨"10-04-25", "Present", "b"⟩], 0, []⟩
        (⟨"T", "n", "Present"⟩ : StudentDetail).status
        (some ([⟨"T", "n", "Present"⟩].map normDetail)) false "10-04-25" "b"
        (⟨"T", "n", "Present"⟩ : StudentDetail).studentId =
      ⟨1, 0, 100, [⟨"10-04-25", "Present", "b"⟩], 0, []⟩ ∧
    (rosterApplyTrainee false (some [⟨"T", "n", "Present"⟩])
          [⟨"T", "n", "Absent"⟩] ⟨"T", 1, 0⟩).totalPresent + 1 = 1 ∧
    (rosterApplyTrainee false (some [⟨"T", "n", "Present"⟩])
          [⟨"T", "n", "Absent"⟩] ⟨"T", 1, 0⟩).totalAbsent = 0 + 1 ∧
    (userApplyAttendance ⟨1, 0, 100, [⟨"10-04-25", "Present", "b"⟩], 0, []⟩
          "Absent" (some [⟨"T", "n", "Present"⟩]) false "10-04-25" "b"
          "T").attendanceHistory =
      [⟨"10-04-25", "Present", "b"⟩].set 0 ⟨"10-04-25", "Absent", "b"⟩ ∧
    (userApplyAttendance ⟨1, 0, 100, [⟨"10-04-25", "Present", "b"⟩], 0, []⟩
          "Absent" (some [⟨"T", "n", "Present"⟩]) false "10-04-25" "b"
          "T").attendanceHistory.length = 1 := by
  have hrate : (⟨1, 0, 100, [⟨"10-04-25", "Present", "b"⟩], 0,
      []⟩ : CourseData).attendanceRate = computeRate 1 0 := by
    unfold computeRate jsRound
    norm_num
  have h := record_attendance_second_call_semantics
  refine ⟨h.1 [⟨"T", "n", "Present"⟩] [⟨"T", 1, 0⟩] (by decide)
      (by decide),
    h.2.1 [⟨"T", "n", "Present"⟩] _ ⟨"T", "n", "Present"⟩ "10-04-25" "b"
      (by decide) (by decide) (List.mem_singleton.2 rfl) (by decide) hrate,
    (h.2.2.1 [⟨"T", "n", "Present"⟩] [⟨"T", "n", "Absent"⟩] ⟨"T", 1, 0⟩
        ⟨"T", "n", "Present"⟩ (by decide) (by decide) rfl (by decide)).1,
    (h.2.2.1 [⟨"T", "n", "Present"⟩] [⟨"T", "n", "Absent"⟩] ⟨"T", 1, 0⟩
        ⟨"T", "n", "Present"⟩ (by decide) (by decide) rfl (by decide)).2.1,
    (h.2.2.2.2.1 [⟨"T", "n", "Present"⟩]
        ⟨1, 0, 100, [⟨"10-04-25", "Present", "b"⟩], 0, []⟩
        ⟨"T", "n", "Present"⟩ "10-04-25" "b" "T" 0 (by decide) (by decide)
        rfl (by decide)).1,
    (h.2.2.2.2.1 [⟨"T", "n", "Present"⟩]
        ⟨1, 0, 100, [⟨"10-04-25", "Present", "b"⟩], 0, []⟩
        ⟨"T", "n", "Present"⟩ "10-04-25" "b" "T" 0 (by decide) (by decide)
        rfl (by decide)).2.1⟩

/-- Roster round trip for a student of the deleted record: reversing and
re-applying (create path, first record for the date) restores the counters
when the pre-delete counters contained the record's contribution. -/
theorem rosterTrainee_roundtrip (recordDetails : List StudentDetail)
    (t : Trainee) (st : String)
    (hlook : statusMapLookup recordDetails t.userId = some st)
    (hp : st = "Present" → 1 ≤ t.totalPresent)
    (ha : ¬st = "Present" → 1 ≤ t.totalAbsent) :
    (rosterApplyTrainee true none recordDetails
        (rosterReverseTrainee recordDetails t)).userId = t.userId ∧
    (rosterApplyTrainee true none recordDetails
        (rosterReverseTrainee recordDetails t)).totalPresent =
      t.totalPresent ∧
    (rosterApplyTrainee true none recordDetails
        (rosterReverseTrainee recordDetails t)).totalAbsent = t.totalAbsent := by
  by_cases hst : st = "Present"
  · subst hst
    have hp' : 1 ≤ t.totalPresent := hp rfl
    have hrev : rosterReverseTrainee recordDetails t =
        { t with totalPresent := t.totalPresent - 1 } := by
      unfold rosterReverseTrainee
      simp [hlook]
    rw [hrev]
    unfold rosterApplyTrainee
    have hu : statusMapLookup recordDetails
        ({ t with totalPresent := t.totalPresent - 1 } : Trainee).userId =
          some "Present" := hlook
    simp [hu]
    omega
  · have ha' : 1 ≤ t.totalAbsent := ha hst
    have hrev : rosterReverseTrainee recordDetails t =
        { t with totalAbsent := t.totalAbsent - 1 } := by
      unfold rosterReverseTrainee
      simp [hlook, hst]
    rw [hrev]
    unfold rosterApplyTrainee
    have hu : statusMapLookup recordDetails
        ({ t with totalAbsent := t.totalAbsent - 1 } : Trainee).userId =
          some st := hlook
    simp [hu, hst]
    omega

/-- Roster round trip for a trainee absent from the deleted record: both the
reversal and the re-application leave the trainee untouched. -/
theorem rosterTrainee_roundtrip_skip (recordDetails : List StudentDetail)
    (t : Trainee)
    (hlook : statusMapLookup recordDetails t.userId = none) :
    rosterApplyTrainee true none recordDetails
        (rosterReverseTrainee recordDetails t) = t := by
  have hrev : rosterReverseTrainee recordDetails t = t := by
    unfold rosterReverseTrainee
    simp [hlook]
  rw [hrev]
  unfold rosterApplyTrainee
  simp [hlook]

theorem filter_date_middle (l1 l2 : List AttEntry) (e : AttEntry) (d : String)
    (hl1 : ∀ x ∈ l1, x.date ≠ d) (hl2 : ∀ x ∈ l2, x.date ≠ d)
    (he : e.date = d) :
    (l1 ++ e :: l2).filter (fun x => x.date ≠ d) = l1 ++ l2 := by
  rw [List.filter_append,
    List.filter_eq_self.2 (fun x hx => by simpa using hl1 x hx),
    List.filter_cons_of_neg (by simpa using he),
    List.filter_eq_self.2 (fun x hx => by simpa using hl2 x hx)]

theorem findIdx?_date_none (l1 l2 : List AttEntry) (d : String)
    (hl1 : ∀ x ∈ l1, x.date ≠ d) (hl2 : ∀ x ∈ l2, x.date ≠ d) :
    (l1 ++ l2).findIdx? (fun e => e.date = d) = none := by
  refine List.findIdx?_eq_none_iff.2 fun x hx => ?_
  rcases List.mem_append.1 hx with h | h
  · simpa using hl1 x h
  · simpa using hl2 x h

/-- Per-user round trip: reversing the record's contribution and re-applying
it (create path) restores the counters and the rate exactly, while the
history entry for the record's date is re-appended at the end — the result
is a permutation of the pre-delete history. -/
theorem userAttendance_roundtrip (cd : CourseData) (st d b sid : String)
    (l1 l2 : List AttEntry)
    (hhist : cd.attendanceHistory =
      l1 ++ ⟨d, if st = "Present" then "Present" else "Absent", b⟩ :: l2)
    (hl1 : ∀ e ∈ l1, e.date ≠ d) (hl2 : ∀ e ∈ l2, e.date ≠ d)
    (hp : st = "Present" → 1 ≤ cd.totalPresent)
    (ha : ¬st = "Present" → 1 ≤ cd.totalAbsent)
    (hrate : cd.attendanceRate = computeRate cd.totalPresent cd.totalAbsent) :
    (userApplyAttendance (userReverseAttendance cd st (some d)) st none true
        d b sid).totalPresent = cd.totalPresent ∧
    (userApplyAttendance (userReverseAttendance cd st (some d)) st none true
        d b sid).totalAbsent = cd.totalAbsent ∧
    (userApplyAttendance (userReverseAttendance cd st (some d)) st none true
        d b sid).attendanceRate = cd.attendanceRate ∧
    (userApplyAttendance (userReverseAttendance cd st (some d)) st none true
        d b sid).attendanceHistory =
      (l1 ++ l2) ++ [⟨d, if st = "Present" then "Present" else "Absent", b⟩] ∧
    (userApplyAttendance (userReverseAttendance cd st (some d)) st none true
        d b sid).attendanceHistory.Perm cd.attendanceHistory := by
  have hfilt : cd.attendanceHistory.filter (fun x => x.date ≠ d) =
      l1 ++ l2 := by
    rw [hhist]
    exact filter_date_middle l1 l2 _ d hl1 hl2
      (by by_cases hst : st = "Present" <;> simp [hst])
  have hfilt' : cd.attendanceHistory.filter (fun x => !decide (x.date = d)) =
      l1 ++ l2 := by
    simpa using hfilt
  have hidx : (l1 ++ l2).findIdx? (fun e => e.date = d) = none :=
    findIdx?_date_none l1 l2 d hl1 hl2
  by_cases hst : st = "Present"
  · subst hst
    have hp' : 1 ≤ cd.totalPresent := hp rfl
    have hrev : userReverseAttendance cd "Present" (some d) =
        { cd with
          totalPresent := cd.totalPresent - 1
          attendanceHistory := l1 ++ l2
          attendanceRate :=
            computeRate (cd.totalPresent - 1) cd.totalAbsent } := by
      unfold userReverseAttendance
      simp [hfilt']
    rw [hrev]
    unfold userApplyAttendance
    simp [hidx]
    have harith : cd.totalPresent - 1 + 1 = cd.totalPresent := by
      omega
    rw [harith, ← hrate]
    refine ⟨rfl, ?_⟩
    have hperm : (l1 ++ (l2 ++ [(⟨d, "Present", b⟩ : AttEntry)])).Perm
        (l1 ++ (⟨d, "Present", b⟩ : AttEntry) :: l2) :=
      List.Perm.append_left l1 (List.perm_append_singleton _ l2)
    rw [hhist]
    simpa using hperm
  · have ha' : 1 ≤ cd.totalAbsent := ha hst
    have hrev : userReverseAttendance cd st (some d) =
        { cd with
          totalAbsent := cd.totalAbsent - 1
          attendanceHistory := l1 ++ l2
          attendanceRate :=
            computeRate cd.totalPresent (cd.totalAbsent - 1) } := by
      unfold userReverseAttendance
      simp [hfilt', hst]
    rw [hrev]
    unfold userApplyAttendance
    simp [hidx, hst]
    have harith : cd.totalAbsent - 1 + 1 = cd.totalAbsent := by
      omega
    rw [harith, ← hrate]
    refine ⟨rfl, ?_⟩
    have hperm : (l1 ++ (l2 ++ [(⟨d, "Absent", b⟩ : AttEntry)])).Perm
        (l1 ++ (⟨d, "Absent", b⟩ : AttEntry) :: l2) :=
      List.Perm.append_left l1 (List.perm_append_singleton _ l2)
    rw [hhist]
    simpa [hst] using hperm

/-- C4 (counterexample): with two history entries, deleting the record of the
earlier date and re-adding it identically restores the counters but appends
the entry at the END of `attendanceHistory`, so the array differs from its
pre-delete value — the round trip does not restore `attendanceHistory`
exactly. -/
theorem delete_attendance_roundtrip_counterexample :
    (userApplyAttendance
        (userReverseAttendance
          ⟨2, 0, 100, [⟨"01-01-25", "Present", "b"⟩,
            ⟨"02-01-25", "Present", "b"⟩], 0, []⟩
          "Present" (some "01-01-25"))
        "Present" none true "01-01-25" "b" "T").totalPresent = 2 ∧
    (userApplyAttendance
        (userReverseAttendance
          ⟨2, 0, 100, [⟨"01-01-25", "Present", "b"⟩,
            ⟨"02-01-25", "Present", "b"⟩], 0, []⟩
          "Present" (some "01-01-25"))
        "Present" none true "01-01-25" "b" "T").totalAbsent = 0 ∧
    (userApplyAttendance
        (userReverseAttendance
          ⟨2, 0, 100, [⟨"01-01-25", "Present", "b"⟩,
            ⟨"02-01-25", "Present", "b"⟩], 0, []⟩
          "Present" (some "01-01-25"))
        "Present" none true "01-01-25" "b" "T").attendanceHistory =
      [⟨"02-01-25", "Present", "b"⟩, ⟨"01-01-25", "Present", "b"⟩] ∧
    (userApplyAttendance
        (userReverseAttendance
          ⟨2, 0, 100, [⟨"01-01-25", "Present", "b"⟩,
            ⟨"02-01-25", "Present", "b"⟩], 0, []⟩
          "Present" (some "01-01-25"))
        "Present" none true "01-01-25" "b" "T").attendanceHistory ≠
      [⟨"01-01-25", "Present", "b"⟩, ⟨"02-01-25", "Present", "b"⟩] := by
  refine ⟨?_, ?_, ?_, ?_⟩ <;> decide

/-- C4 (amended): DeleteAttendance followed immediately by re-adding an
identical AttendanceRecord (as the first record for that date) restores the
counters exactly — trainees not in the record are untouched, and for each
recorded trainee whose pre-delete aggregates contain the record's
contribution the roster `totalPresent`/`totalAbsent` and the course-progress
`totalPresent`, `totalAbsent` and `attendanceRate` return to their pre-delete
values — while `attendanceHistory` is restored only up to order: the date's
entry is re-appended at the end, so the result is a permutation of the
pre-delete history, not necessarily the same array. -/
theorem delete_attendance_roundtrip :
    (∀ (recordDetails : List StudentDetail) (t : Trainee),
        statusMapLookup recordDetails t.userId = none →
        rosterApplyTrainee true none recordDetails
            (rosterReverseTrainee recordDetails t) = t) ∧
    (∀ (recordDetails : List StudentDetail) (t : Trainee) (st : String),
        statusMapLookup recordDetails t.userId = some st →
        (st = "Present" → 1 ≤ t.totalPresent) →
        (¬st = "Present" → 1 ≤ t.totalAbsent) →
        (rosterApplyTrainee true none recordDetails
            (rosterReverseTrainee recordDetails t)).userId = t.userId ∧
          (rosterApplyTrainee true none recordDetails
              (rosterReverseTrainee recordDetails t)).totalPresent =
            t.totalPresent ∧
          (rosterApplyTrainee true none recordDetails
              (rosterReverseTrainee recordDetails t)).totalAbsent =
            t.totalAbsent) ∧
    (∀ (cd : CourseData) (st d b sid : String) (l1 l2 : List AttEntry),
        cd.attendanceHistory =
          l1 ++ ⟨d, if st = "Present" then "Present" else "Absent", b⟩ :: l2 →
        (∀ e ∈ l1, e.date ≠ d) → (∀ e ∈ l2, e.date ≠ d) →
        (st = "Present" → 1 ≤ cd.totalPresent) →
        (¬st = "Present" → 1 ≤ cd.totalAbsent) →
        cd.attendanceRate = computeRate cd.totalPresent cd.totalAbsent →
        (userApplyAttendance (userReverseAttendance cd st (some d)) st none
            true d b sid).totalPresent = cd.totalPresent ∧
          (userApplyAttendance (userReverseAttendance cd st (some d)) st none
              true d b sid).totalAbsent = cd.totalAbsent ∧
          (userApplyAttendance (userReverseAttendance cd st (some d)) st none
              true d b sid).attendanceRate = cd.attendanceRate ∧
          (userApplyAttendance (userReverseAttendance cd st (some d)) st none
              true d b sid).attendanceHistory =
            (l1 ++ l2) ++
              [⟨d, if st = "Present" then "Present" else "Absent", b⟩] ∧
          (userApplyAttendance (userReverseAttendance cd st (some d)) st none
              true d b sid).attendanceHistory.Perm cd.attendanceHistory) :=
  ⟨rosterTrainee_roundtrip_skip,
    fun recordDetails t st hlook hp ha =>
      rosterTrainee_roundtrip recordDetails t st hlook hp ha,
    fun cd st d b sid l1 l2 hhist hl1 hl2 hp ha hrate =>
      userAttendance_roundtrip cd st d b sid l1 l2 hhist hl1 hl2 hp ha hrate⟩

/-- Concrete instances of C4 (amended): a one-entry history round trip for
the recorded trainee, and an untouched bystander trainee. -/
theorem delete_attendance_roundtrip_witness :
    rosterApplyTrainee true none [⟨"S", "n", "Present"⟩]
        (rosterReverseTrainee [⟨"S", "n", "Present"⟩] ⟨"T", 0, 0⟩) =
      ⟨"T", 0, 0⟩ ∧
    (rosterApplyTrainee true none [⟨"T", "n", "Present"⟩]
        (rosterReverseTrainee [⟨"T", "n", "Present"⟩]
          ⟨"T", 1, 0⟩)).totalPresent = 1 ∧
    (userApplyAttendance
        (userReverseAttendance
          ⟨1, 0, 100, [⟨"01-01-25", "Present", "b"⟩], 0, []⟩ "Present"
          (some "01-01-25"))
        "Present" none true "01-01-25" "b" "T").totalPresent = 1 ∧
    (userApplyAttendance
        (userReverseAttendance
          ⟨1, 0, 100, [⟨"01-01-25", "Present", "b"⟩], 0, []⟩ "Present"
          (some "01-01-25"))
        "Present" none true "01-01-25" "b" "T").attendanceRate = 100 ∧
    (userApplyAttendance
        (userReverseAttendance
          ⟨1, 0, 100, [⟨"01-01-25", "Present", "b"⟩], 0, []⟩ "Present"
          (some "01-01-25"))
        "Present" none true "01-01-25" "b" "T").attendanceHistory.Perm
      [⟨"01-01-25", "Present", "b"⟩] := by
  have h := delete_attendance_roundtrip
  have hu := h.2.2 ⟨1, 0, 100, [⟨"01-01-25", "Present", "b"⟩], 0, []⟩
    "Present" "01-01-25" "b" "T" [] []
    (by decide) (by decide) (by decide) (by decide) (by decide)
    (by unfold computeRate jsRound; norm_num)
  refine ⟨h.1 [⟨"S", "n", "Present"⟩] ⟨"T", 0, 0⟩ (by decide),
    (h.2.1 [⟨"T", "n", "Present"⟩] ⟨"T", 1, 0⟩ "Present" (by decide)
        (by decide) (by decide)).2.1,
    hu.1, ?_, hu.2.2.2.2⟩
  rw [hu.2.2.1]

end TrainingPortal
